import Mathlib

/-!
Verification development for the QM9 dataset-exploration notebook
(examples/qm9/qm9_dataset_exploration.ipynb).

The notebook is a linear sequence of cells that (a) sets up logging and
display, (b) resolves the dataset path, (c) retrieves the label names,
(d) preprocesses every record into fixed-shape numeric tuples via
`get_qm9` with a `GGNNPreprocessor`, (e) inspects one record by index,
(f) renders a SMILES string to an SVG image via `moltosvg`, (g) browses
records with an interactive slider calling `show_dataset`, and
(h) defines image-export helpers `save_svg` / `save_png` after a guarded
`os.mkdir` of an `images` directory.

This file embeds the notebook's own functions (`moltosvg`, `render_svg`,
`show_dataset`, `save_svg`, `save_png`, the directory guard) and its
concrete recorded data (the label names printed by cell 7 and the full
feature tuple of record 7777 printed by cell 15) as executable Lean
definitions, and proves the specified properties about them.  External
library calls (RDKit molecule operations, the filesystem, the slider)
are modelled by explicit executable functions over small state types,
faithful to the documented contract of each call.
-/

namespace QM9Exploration

/-! ## Per-molecule feature tuple (the data model)

`dataset[i]` is a tuple `(atom, adj, labels)`: an atomic-number vector,
a stacked adjacency tensor (one square matrix per bond category), and a
numeric label vector.  Entries are embedded as rationals, standing for
the float values numpy prints. -/

structure QM9Record where
  atom : List Nat
  adj : List (List (List ℚ))
  labels : List ℚ
deriving DecidableEq

/-- Adjacency matrix for the SINGLE bond type of record 7777
(`adj[0]` as printed by cell 15). -/
def adjSingle_7777 : List (List ℚ) :=
  [[0, 1, 0, 0, 0, 0, 0, 0],
   [1, 0, 0, 0, 0, 0, 0, 1],
   [0, 0, 0, 1, 0, 0, 0, 0],
   [0, 0, 1, 0, 1, 0, 0, 0],
   [0, 0, 0, 1, 0, 1, 0, 0],
   [0, 0, 0, 0, 1, 0, 1, 1],
   [0, 0, 0, 0, 0, 1, 0, 0],
   [0, 1, 0, 0, 0, 1, 0, 0]]

/-- Adjacency matrix for the DOUBLE bond type of record 7777
(`adj[1]` as printed by cell 15): the single C=N double bond of
`CC1=NCCC(C)O1`, between atoms 1 and 2. -/
def adjDouble_7777 : List (List ℚ) :=
  [[0, 0, 0, 0, 0, 0, 0, 0],
   [0, 0, 1, 0, 0, 0, 0, 0],
   [0, 1, 0, 0, 0, 0, 0, 0],
   [0, 0, 0, 0, 0, 0, 0, 0],
   [0, 0, 0, 0, 0, 0, 0, 0],
   [0, 0, 0, 0, 0, 0, 0, 0],
   [0, 0, 0, 0, 0, 0, 0, 0],
   [0, 0, 0, 0, 0, 0, 0, 0]]

/-- The all-zero 8 by 8 matrix: both `adj[2]` (TRIPLE) and `adj[3]`
(AROMATIC) of record 7777 as printed by cell 15. -/
def adjZero8 : List (List ℚ) :=
  [[0, 0, 0, 0, 0, 0, 0, 0],
   [0, 0, 0, 0, 0, 0, 0, 0],
   [0, 0, 0, 0, 0, 0, 0, 0],
   [0, 0, 0, 0, 0, 0, 0, 0],
   [0, 0, 0, 0, 0, 0, 0, 0],
   [0, 0, 0, 0, 0, 0, 0, 0],
   [0, 0, 0, 0, 0, 0, 0, 0],
   [0, 0, 0, 0, 0, 0, 0, 0]]

/-- The feature tuple of `dataset[7777]` (SMILES `CC1=NCCC(C)O1`),
exactly as printed by the inspection cell (cell 15) of the notebook:
`atom` of shape (8,), `adj` of shape (4, 8, 8) stacked in the order
SINGLE, DOUBLE, TRIPLE, AROMATIC, and 15 labels. -/
def record_7777 : QM9Record :=
  { atom := [6, 6, 7, 6, 6, 6, 6, 8],
    adj := [adjSingle_7777, adjDouble_7777, adjZero8, adjZero8],
    labels := [3.1431, 1.87494, 1.24431, 1.9313999, 73.379997,
               -0.2375, 0.034699999, 0.27219999, 1012.4120, 0.16597100,
               -365.10001, -365.09183, -365.09088, -365.13235, 30.584999] }

/-- Entry `(c, i, j)` of the stacked adjacency tensor of a record
(bond-type channel `c`, row `i`, column `j`); out-of-range indices
read as 0. -/
def adjEntry (r : QM9Record) (c i j : Nat) : ℚ :=
  ((r.adj.getD c []).getD i []).getD j 0

/-- The diagonal-sentinel property asserted by the notebook's comment
in cell 15: every diagonal entry of every bond-type channel equals 1. -/
def diagEntriesOne (r : QM9Record) : Prop :=
  ∀ c < r.adj.length, ∀ i < r.atom.length, adjEntry r c i i = 1

instance (r : QM9Record) : Decidable (diagEntriesOne r) := by
  unfold diagEntriesOne; infer_instance

/-- The adjacency tensor holds one square N-by-N matrix per bond
category, N being the number of atoms. -/
def squareStack (r : QM9Record) : Prop :=
  r.adj.length = 4 ∧
  ∀ m ∈ r.adj, m.length = r.atom.length ∧ ∀ row ∈ m, row.length = r.atom.length

instance (r : QM9Record) : Decidable (squareStack r) := by
  unfold squareStack; infer_instance

/-! ## Label names

Cell 7's recorded output of `datasets.get_qm9_label_names()`, and the
schema documented by the QM9 `readme.txt` table quoted in cell 8
(properties 3 through 17 of that table, in order). -/

def qm9_label_names : List String :=
  ["A", "B", "C", "mu", "alpha", "homo", "lumo", "gap", "r2", "zpve",
   "U0", "U", "H", "G", "Cv"]

def qm9_readme_schema : List String :=
  ["A", "B", "C", "mu", "alpha", "homo", "lumo", "gap", "r2", "zpve",
   "U0", "U", "H", "G", "Cv"]

/-! ## The preprocessing call (`get_qm9`)

`chainer_chemistry.datasets.get_qm9` itself is not under src/; only its
caller is.  It is modelled from the spec below. -/

/-- The value returned (and the counts logged) by the preprocessing
routine. -/
structure PreprocessResult (α β : Type) where
  dataset : List α
  smiles : List β
  fail : Nat
  success : Nat
  total : Nat
deriving DecidableEq

/-- Modelled from the spec: `chainer_chemistry.datasets.get_qm9` (not
under src/) — "given a collection of raw molecule records and a
preprocessor policy, returns (a) a collection of fixed-shape numeric
tuples and (b) optionally a parallel collection of textual molecule
descriptors, reporting per-record success/failure counts and a total".
The preprocessor policy maps a raw record to `none` (a preprocessing
failure, counted as FAIL) or to its feature tuple together with its
SMILES descriptor (counted as SUCCESS); this models the call with
`labels=None, return_smiles=True`. -/
def get_qm9 {α β γ : Type} (pre : γ → Option (α × β)) :
    List γ → PreprocessResult α β
  | [] => ⟨[], [], 0, 0, 0⟩
  | r :: rs =>
    let rest := get_qm9 pre rs
    match pre r with
    | some (f, s) =>
      ⟨f :: rest.dataset, s :: rest.smiles, rest.fail, rest.success + 1,
       rest.total + 1⟩
    | none =>
      ⟨rest.dataset, rest.smiles, rest.fail + 1, rest.success, rest.total + 1⟩

/-! ## RDKit molecule model and the notebook's `moltosvg`

A parsed molecule is modelled by an abstract graph payload plus the
state the notebook's code observes and changes through RDKit calls:
whether the kekulized form has been computed, whether kekulization can
succeed on it (`Chem.Kekulize` raises on some molecules), and its
conformer count. -/

structure Mol where
  graph : Nat
  kekulized : Bool
  kekulizable : Bool
  numConformers : Nat
deriving DecidableEq

/-- `Chem.Mol(mol.ToBinary())`: serializing and re-parsing yields a
fresh molecule object with the same value. -/
def Mol.copy (m : Mol) : Mol := m

/-- `Chem.Kekulize(mc)`: succeeds with the kekulized molecule when the
molecule admits a kekulization, raises otherwise. -/
def Mol.kekulizeOp (m : Mol) : Except Unit Mol :=
  if m.kekulizable then Except.ok { m with kekulized := true }
  else Except.error ()

/-- `rdDepictor.Compute2DCoords(mc)`: computes a (single) 2D conformer. -/
def compute2DCoords (m : Mol) : Mol := { m with numConformers := 1 }

/-- The drawing text returned by `drawer.GetDrawingText()` after
`MolDraw2DSVG(w, h)` / `DrawMolecule` / `FinishDrawing`: an SVG of the
drawn molecule at the requested canvas size. -/
structure SvgText where
  drawnMol : Mol
  width : Nat
  height : Nat
deriving DecidableEq

def getDrawingText (m : Mol) (w h : Nat) : SvgText := ⟨m, w, h⟩

/-- The notebook's `moltosvg(mol, molSize, kekulize)` (cell 17),
returning both the SVG string and the value of the argument object
after the call.  Every mutating RDKit call in the source (`Kekulize`,
`Compute2DCoords`, `DrawMolecule`) targets the copy `mc` built by
`Chem.Mol(mol.ToBinary())`, never `mol`, so the argument's final value
is the value it was passed with. -/
def moltosvgFull (mol : Mol) (molSize : Nat × Nat) (kekulize : Bool) :
    SvgText × Mol :=
  let mc := Mol.copy mol
  let mc := if kekulize then
      match Mol.kekulizeOp mc with
      | Except.ok m => m
      | Except.error _ => Mol.copy mol
    else mc
  let mc := if mc.numConformers = 0 then compute2DCoords mc else mc
  (getDrawingText mc molSize.1 molSize.2, mol)

def moltosvg (mol : Mol) (molSize : Nat × Nat) (kekulize : Bool) : SvgText :=
  (moltosvgFull mol molSize kekulize).1

/-- `moltosvg(mol)` with the source's default arguments
`molSize=(450,150), kekulize=True`. -/
def moltosvg_default (mol : Mol) : SvgText := moltosvg mol (450, 150) true

/-- The notebook's `render_svg(svg)` (cell 17): wraps the SVG text in an
IPython display object (the `svg:`-prefix fix is a string-level detail
of the same text). -/
structure SvgDisplay where
  content : SvgText
deriving DecidableEq

def render_svg (svg : SvgText) : SvgDisplay := ⟨svg⟩

/-- Cell 18: `mol = Chem.MolFromSmiles(smiles); moltosvg(mol)` with no
handler — when parsing returns `None`, the subsequent call raises and
the failure propagates out of the cell. -/
def render_cell (parse : String → Option Mol) (smiles : String) :
    Except Unit SvgDisplay :=
  match parse smiles with
  | none => Except.error ()
  | some mol => Except.ok (render_svg (moltosvg_default mol))

/-! ## Filesystem model: the `images` directory guard and file writes -/

inductive FileContent
  | svg (text : SvgText)
  | png (mol : Mol) (size : Nat × Nat)
deriving DecidableEq

structure FS where
  dirs : List String
  files : List (String × FileContent)
deriving DecidableEq

/-- `os.path.exists(path)`. -/
def FS.pathExists (fs : FS) (path : String) : Bool :=
  fs.dirs.contains path || fs.files.any (fun f => f.1 == path)

/-- `os.mkdir(path)`: creates the directory, raising `FileExistsError`
when the path already exists. -/
def mkdir (path : String) (fs : FS) : Except Unit FS :=
  if fs.pathExists path then Except.error ()
  else Except.ok { fs with dirs := path :: fs.dirs }

/-- Cell 23: `if not os.path.exists(dirpath): os.mkdir(dirpath)` with
`dirpath = 'images'`. -/
def images_dir_setup (fs : FS) : Except Unit FS :=
  if fs.pathExists "images" then Except.ok fs else mkdir "images" fs

/-- `open(filepath, "w")` followed by a single `write(content)`:
truncates any previous content of `filepath` and stores exactly
`content`; no other path is touched. -/
def write_file (fs : FS) (path : String) (content : FileContent) : FS :=
  { fs with files := (path, content) :: fs.files.filter (fun f => f.1 != path) }

def read_file (fs : FS) (path : String) : Option FileContent :=
  (fs.files.find? (fun f => f.1 == path)).map Prod.snd

/-- The notebook's `save_svg(mol, filepath)` (cell 24): writes the
string returned by `moltosvg(mol)` to `filepath`. -/
def save_svg (mol : Mol) (filepath : String) (fs : FS) : FS :=
  write_file fs filepath (FileContent.svg (moltosvg_default mol))

/-- The notebook's `save_png(mol, filepath, size)` (cell 27):
`Draw.MolToFile(mol, filepath, size=size)` rasterizes the molecule to a
PNG file at the given resolution. -/
def save_png (mol : Mol) (filepath : String) (size : Nat × Nat) (fs : FS) : FS :=
  write_file fs filepath (FileContent.png mol size)

/-- `save_png(mol, filepath)` with the source's default `size=(600, 600)`. -/
def save_png_default (mol : Mol) (filepath : String) (fs : FS) : FS :=
  save_png mol filepath (600, 600) fs

/-! ## Notebook state after preprocessing, and the later read-only steps -/

/-- The in-memory state the notebook holds across cells after the
preprocessing cell: the returned `dataset` and `dataset_smiles`
collections, plus the filesystem the export helpers write to. -/
structure NB where
  dataset : List QM9Record
  dataset_smiles : List String
  fs : FS
deriving DecidableEq

/-- What one `show_dataset(index)` call (cell 21) prints and returns. -/
structure ShowOutput where
  smiles : String
  record : QM9Record
  image : SvgDisplay
deriving DecidableEq

/-- The notebook's `show_dataset(index)` (cell 21): reads
`dataset_smiles[index]`, destructures `dataset[index]`, parses the
SMILES, and returns the rendered SVG.  Indexing is embedded with `get?`
so that an out-of-bounds access (Python `IndexError`) or a failed parse
(`MolFromSmiles` returning `None`, making `moltosvg` raise) surfaces as
`none`. -/
def show_dataset (parse : String → Option Mol) (nb : NB) (index : Nat) :
    Option ShowOutput :=
  match nb.dataset_smiles.get? index, nb.dataset.get? index with
  | some s, some r =>
    match parse s with
    | some mol => some ⟨s, r, render_svg (moltosvg_default mol)⟩
    | none => none
  | _, _ => none

/-- A value the integer slider built by `interact(show_dataset,
index=(mn, mx, step))` can deliver: the ipywidgets contract for an
integer triple is an `IntSlider` over `mn, mn+step, ...` bounded by
`mx`. -/
def sliderValue (mn mx step v : Nat) : Prop :=
  mn ≤ v ∧ v ≤ mx ∧ (v - mn) % step = 0

instance (mn mx step v : Nat) : Decidable (sliderValue mn mx step v) := by
  unfold sliderValue; infer_instance

/-- The notebook steps that run after preprocessing, each with the
index it uses where relevant: the inspection cell 15, the render cell
18, a `show_dataset` call from the slider (cell 21), the `images`
directory guard (cell 23), and the two export cells 25 and 28. -/
inductive PostStep
  | inspectRecord (index : Nat)
  | renderSmiles (index : Nat)
  | browse (index : Nat)
  | imagesDirStep
  | saveSvgAt (index : Nat)
  | savePngAt (index : Nat)
deriving DecidableEq

/-- Runs one post-preprocessing step on the notebook state.  Reads are
by `get?` and external failures surface as `none`; the only state any
step writes is the filesystem (directory creation and the two image
files). -/
def runStep (parse : String → Option Mol) (s : PostStep) (nb : NB) :
    Option NB :=
  match s with
  | PostStep.inspectRecord i =>
    match nb.dataset_smiles.get? i, nb.dataset.get? i with
    | some _, some _ => some nb
    | _, _ => none
  | PostStep.renderSmiles i =>
    (nb.dataset_smiles.get? i).bind fun s =>
      (parse s).map fun _ => nb
  | PostStep.browse i => (show_dataset parse nb i).map fun _ => nb
  | PostStep.imagesDirStep =>
    match images_dir_setup nb.fs with
    | Except.ok fs2 => some { nb with fs := fs2 }
    | Except.error _ => none
  | PostStep.saveSvgAt i =>
    (nb.dataset_smiles.get? i).bind fun s =>
      (parse s).map fun mol =>
        { nb with fs := save_svg mol ("images/mol_" ++ toString i ++ ".svg") nb.fs }
  | PostStep.savePngAt i =>
    (nb.dataset_smiles.get? i).bind fun s =>
      (parse s).map fun mol =>
        { nb with fs := save_png_default mol ("images/mol_" ++ toString i ++ ".png") nb.fs }

/-- Runs a sequence of post-preprocessing steps, stopping at the first
failure. -/
def runSteps (parse : String → Option Mol) (l : List PostStep) (nb : NB) :
    Option NB :=
  l.foldl (fun acc s => acc.bind (runStep parse s)) (some nb)

/-! ## The notebook's top-level cell sequence -/

/-- The eight step categories of the notebook, in the spec's lettering:
(a) log/display setup, (b) dataset path resolution, (c) label-name
retrieval, (d) preprocessing, (e) indexed inspection, (f) SMILES-to-image
rendering, (g) the interactive slider, (h) image export helpers. -/
inductive StepKind
  | logSetup
  | pathResolution
  | labelRetrieval
  | preprocessing
  | inspection
  | rendering
  | sliderBrowse
  | exportHelpers
deriving DecidableEq

/-- The notebook's code cells in document order, each tagged with the
step category it belongs to: cell 3 (imports, RDKit log level, logging
setup), cell 5 (`get_qm9_filepath`), cell 7 (`get_qm9_label_names`),
cell 10 (`GGNNPreprocessor` / `get_qm9`), cells 12 and 15 (length check
and indexed inspection of record 7777), cells 17 and 18 (`moltosvg` /
`render_svg` definitions and the render call), cell 21 (`interact` with
`show_dataset`), cells 23 to 28 (directory guard, `save_svg`, the SVG
export, `save_png`, the PNG export). -/
def notebook_cells : List (Nat × StepKind) :=
  [(3, StepKind.logSetup),
   (5, StepKind.pathResolution),
   (7, StepKind.labelRetrieval),
   (10, StepKind.preprocessing),
   (12, StepKind.inspection),
   (15, StepKind.inspection),
   (17, StepKind.rendering),
   (18, StepKind.rendering),
   (21, StepKind.sliderBrowse),
   (23, StepKind.exportHelpers),
   (24, StepKind.exportHelpers),
   (25, StepKind.exportHelpers),
   (27, StepKind.exportHelpers),
   (28, StepKind.exportHelpers)]

/-- Collapses consecutive repeats, leaving the order of first
appearance of each run. -/
def collapseRuns : List StepKind → List StepKind
  | [] => []
  | [a] => [a]
  | a :: b :: rest =>
    if a = b then collapseRuns (b :: rest) else a :: collapseRuns (b :: rest)

/-! ## Theorems -/

/-- C1 counterexample: the claim that every bond-type channel of the
adjacency feature has its diagonal entries set to the sentinel 1 is
false on the record the notebook itself inspects: in `dataset[7777]`
(as recorded by cell 15) the diagonal entry (0, 0) of the SINGLE-bond
channel is 0, and the diagonal-ones property fails. -/
theorem C1_counterexample :
    adjEntry record_7777 0 0 0 = 0 ∧ ¬ diagEntriesOne record_7777 := by
  decide

/-- C1 (amended): the adjacency feature of the preprocessed record is a
stacked structure of one square N-by-N matrix per bond category in the
order single, double, triple, aromatic (shape (4, N, N) with N = 8
atoms), but its diagonal entries are 0 — the `GGNNPreprocessor` does
not add the self-loop sentinel 1 that the notebook's comment ascribes
to the NFP consumer.  Channel order is witnessed by the molecule
`CC1=NCCC(C)O1`: its single C=N double bond appears (symmetrically) in
channel 1 and its triple/aromatic channels are all-zero. -/
theorem C1_adjacency_stack :
    squareStack record_7777 ∧
    record_7777.atom.length = 8 ∧
    (∀ c < record_7777.adj.length, ∀ i < record_7777.atom.length,
      adjEntry record_7777 c i i = 0) ∧
    adjEntry record_7777 1 1 2 = 1 ∧ adjEntry record_7777 1 2 1 = 1 ∧
    record_7777.adj.getD 2 [] = adjZero8 ∧
    record_7777.adj.getD 3 [] = adjZero8 := by
  refine ⟨by decide, rfl, by decide, rfl, rfl, rfl, rfl⟩

/-- C4: `get_qm9_label_names` returns the fixed ordered list of exactly
15 property-name strings recorded by cell 7, it matches the dataset's
documented schema (the readme table quoted in cell 8), and the label
feature of the record extracted with `labels=None` is a numeric vector
of length 15, one entry per label name. -/
theorem C4_label_schema :
    qm9_label_names.length = 15 ∧
    qm9_label_names = qm9_readme_schema ∧
    record_7777.labels.length = qm9_label_names.length :=
  ⟨rfl, rfl, rfl⟩

/-- C5 counterexample: not every step is a direct external call with no
branching on results — the image-export step's directory setup
(cell 23) branches on the result of `os.path.exists`: on a state where
the `images` directory already exists, the guarded step succeeds and
leaves the state unchanged, while the direct unconditional library call
`os.mkdir('images')` raises. -/
theorem C5_counterexample :
    images_dir_setup (FS.mk ["images"] []) = Except.ok (FS.mk ["images"] []) ∧
    mkdir "images" (FS.mk ["images"] []) = Except.error () :=
  ⟨rfl, rfl⟩

/-- C5 (amended): the notebook executes its steps exactly in the order
(a) log/display setup, (b) dataset path resolution, (c) label-name
retrieval, (d) preprocessing, (e) indexed inspection, (f) SMILES-to-image
rendering, (g) the interactive slider, (h) image export helpers; the
steps are direct external calls except that the export step guards
`os.mkdir` on an existence check and `moltosvg` internally branches on
kekulization failure and on the conformer count. -/
theorem C5_step_order :
    collapseRuns (notebook_cells.map Prod.snd) =
      [StepKind.logSetup, StepKind.pathResolution, StepKind.labelRetrieval,
       StepKind.preprocessing, StepKind.inspection, StepKind.rendering,
       StepKind.sliderBrowse, StepKind.exportHelpers] := by
  decide

/-- A molecule on which `Chem.Kekulize` raises. -/
def mol_nonkek : Mol := Mol.mk 0 false false 0

/-- Helper: when kekulization fails on the molecule, `moltosvg` with
`kekulize=True` falls back to a fresh non-kekulized copy and produces
the same SVG as the `kekulize=False` call. -/
theorem moltosvg_fallback_of_not_kekulizable (mol : Mol) (sz : Nat × Nat)
    (h : mol.kekulizable = false) :
    moltosvg mol sz true = moltosvg mol sz false := by
  simp [moltosvg, moltosvgFull, Mol.kekulizeOp, Mol.copy, h]

/-- C2 counterexample: it is not true that no function of the notebook
catches an exception and continues with a fallback — on a concrete
molecule where the `Chem.Kekulize` call fails, `moltosvg` does not
propagate the failure but returns the drawing of the fresh
non-kekulized copy. -/
theorem C2_counterexample :
    Mol.kekulizeOp mol_nonkek = Except.error () ∧
    moltosvg mol_nonkek (450, 150) true =
      getDrawingText (compute2DCoords mol_nonkek) 450 150 :=
  ⟨rfl, rfl⟩

/-- C2 (amended): the notebook defines no recovery or retry except the
one handler in `moltosvg`, which catches a kekulization failure and
continues with a fresh non-kekulized copy (same result as the
`kekulize=False` call); every other failure propagates unhandled — in
particular a malformed descriptor (`MolFromSmiles` returning `None`)
makes the rendering cell fail with no fallback. -/
theorem C2_error_propagation (parse : String → Option Mol) (s : String)
    (mol : Mol) (sz : Nat × Nat) :
    (mol.kekulizable = false → moltosvg mol sz true = moltosvg mol sz false) ∧
    (parse s = none → render_cell parse s = Except.error ()) := by
  refine ⟨fun h => moltosvg_fallback_of_not_kekulizable mol sz h, fun h => ?_⟩
  simp [render_cell, h]

/-- Witness for C2: the fallback equality and the propagation hold at a
concrete failing molecule and a concrete failing parse. -/
theorem C2_error_propagation_witness :
    moltosvg mol_nonkek (450, 150) true = moltosvg mol_nonkek (450, 150) false ∧
    render_cell (fun _ => none) "C" = Except.error () :=
  ⟨(C2_error_propagation (fun _ => none) "C" mol_nonkek (450, 150)).1 rfl,
   (C2_error_propagation (fun _ => none) "C" mol_nonkek (450, 150)).2 rfl⟩

/-- C9: `moltosvg` is total over parsed molecules — the argument object
is left unchanged (every mutating call targets the copy), a kekulization
failure falls back to a fresh non-kekulized copy instead of propagating,
2D coordinates are computed exactly when the copy has no conformer, and
the result is always the drawing text at the requested size. -/
theorem C9_moltosvg_total (mol : Mol) (sz : Nat × Nat) (k : Bool) :
    (moltosvgFull mol sz k).2 = mol ∧
    (mol.kekulizable = false → moltosvg mol sz true = moltosvg mol sz false) ∧
    (moltosvg mol sz k).drawnMol.numConformers =
      (if mol.numConformers = 0 then 1 else mol.numConformers) ∧
    moltosvg mol sz k = getDrawingText (moltosvg mol sz k).drawnMol sz.1 sz.2 := by
  refine ⟨rfl, fun h => moltosvg_fallback_of_not_kekulizable mol sz h, ?_, ?_⟩
  · cases k <;> by_cases hk : mol.kekulizable <;>
      by_cases hc : mol.numConformers = 0 <;>
      simp [moltosvg, moltosvgFull, Mol.kekulizeOp, Mol.copy, compute2DCoords,
        getDrawingText, hk, hc]
  · cases k <;> by_cases hk : mol.kekulizable <;>
      by_cases hc : mol.numConformers = 0 <;>
      simp [moltosvg, moltosvgFull, Mol.kekulizeOp, Mol.copy, compute2DCoords,
        getDrawingText, hk, hc]

/-- Witness for C9: the fallback equality at a concrete molecule with a
conformer on which kekulization fails. -/
theorem C9_moltosvg_total_witness :
    moltosvg (Mol.mk 1 false false 2) (300, 200) true =
      moltosvg (Mol.mk 1 false false 2) (300, 200) false :=
  (C9_moltosvg_total (Mol.mk 1 false false 2) (300, 200) true).2.1 rfl

/-- C10: the `images` directory setup is idempotent — it always
succeeds leaving the files untouched, running it a second time changes
nothing, and when the directory already exists the state is returned
unchanged with no already-exists error. -/
theorem C10_images_dir_idempotent (fs : FS) :
    (∃ fs2, images_dir_setup fs = Except.ok fs2 ∧ fs2.files = fs.files) ∧
    (images_dir_setup fs).bind images_dir_setup = images_dir_setup fs ∧
    (fs.pathExists "images" = true → images_dir_setup fs = Except.ok fs) := by
  by_cases h : fs.pathExists "images"
  · exact ⟨⟨fs, by simp [images_dir_setup, h], rfl⟩,
      by simp [images_dir_setup, Except.bind, h], fun _ => by simp [images_dir_setup, h]⟩
  · have h2 : (FS.mk ("images" :: fs.dirs) fs.files).pathExists "images" = true := by
      simp [FS.pathExists]
    refine ⟨⟨FS.mk ("images" :: fs.dirs) fs.files, ?_, rfl⟩, ?_, fun hh => absurd hh (by simp [h])⟩
    · simp [images_dir_setup, mkdir, h]
    · simp [images_dir_setup, mkdir, Except.bind, h, h2]

/-- Witness for C10: on a filesystem that already has the `images`
directory the setup returns the state unchanged. -/
theorem C10_images_dir_idempotent_witness :
    images_dir_setup (FS.mk ["images"] ((("a.txt" : String), FileContent.png mol_nonkek (1, 1)) :: [])) =
      Except.ok (FS.mk ["images"] ((("a.txt" : String), FileContent.png mol_nonkek (1, 1)) :: [])) :=
  (C10_images_dir_idempotent _).2.2 rfl

/-- Helper: looking up a key different from `fp` is unaffected by
filtering out the entries keyed `fp`. -/
theorem find_filter_ne (l : List (String × FileContent)) (fp p : String)
    (h : p ≠ fp) :
    (l.filter (fun f => f.1 != fp)).find? (fun f => f.1 == p) =
      l.find? (fun f => f.1 == p) := by
  have hfp : (fp == p) = false := by
    simp; exact fun hh => h hh.symm
  induction l with
  | nil => rfl
  | cons a t ih =>
    by_cases hafp : a.1 = fp
    · simp [List.filter_cons, List.find?_cons, hafp, hfp, ih]
    · by_cases hap : a.1 = p
      · simp [List.filter_cons, List.find?_cons, hafp, hap, h, ih]
      · simp [List.filter_cons, List.find?_cons, hafp, hap, ih]

/-- C7: `save_svg(mol, filepath)` stores at `filepath` exactly the SVG
string `moltosvg(mol)` and touches no other path, and
`save_png(mol, filepath, size)` rasterizes the molecule to `filepath`
at the caller's resolution (touching no other path), defaulting to
(600, 600) when `size` is not given. -/
theorem C7_export_helpers (mol : Mol) (fp : String) (size : Nat × Nat) (fs : FS) :
    read_file (save_svg mol fp fs) fp =
      some (FileContent.svg (moltosvg_default mol)) ∧
    (∀ p, p ≠ fp → read_file (save_svg mol fp fs) p = read_file fs p) ∧
    read_file (save_png mol fp size fs) fp =
      some (FileContent.png mol size) ∧
    (∀ p, p ≠ fp → read_file (save_png mol fp size fs) p = read_file fs p) ∧
    save_png_default mol fp fs = save_png mol fp (600, 600) fs := by
  refine ⟨?_, fun p hp => ?_, ?_, fun p hp => ?_, rfl⟩
  · simp [read_file, save_svg, write_file, List.find?_cons]
  · have hfp : (fp == p) = false := by
      simp; exact fun hh => hp hh.symm
    simp [read_file, save_svg, write_file, List.find?_cons, hfp,
      find_filter_ne fs.files fp p hp]
  · simp [read_file, save_png, write_file, List.find?_cons]
  · have hfp : (fp == p) = false := by
      simp; exact fun hh => hp hh.symm
    simp [read_file, save_png, write_file, List.find?_cons, hfp,
      find_filter_ne fs.files fp p hp]

/-- Witness for C7: writing `images/mol_7777.svg` leaves another path's
lookup unchanged, at concrete inputs. -/
theorem C7_export_helpers_witness :
    read_file
        (save_svg (Mol.mk 2 false true 1) "images/mol_7777.svg" (FS.mk ["images"] []))
        "other.svg" =
      read_file (FS.mk ["images"] []) "other.svg" :=
  (C7_export_helpers (Mol.mk 2 false true 1) "images/mol_7777.svg" (600, 600)
      (FS.mk ["images"] [])).2.1 "other.svg" (by decide)

/-- C3: `get_qm9` with a preprocessor, `labels=None` and
`return_smiles=True` returns parallel collections of the same length,
the success count equals the number of extracted tuples, the reported
FAIL and SUCCESS counts sum to the reported TOTAL, the TOTAL equals the
number of raw records, and for every valid index the i-th SMILES
descriptor and the i-th feature tuple come from the same raw record
under the preprocessor. -/
theorem C3_get_qm9 {α β γ : Type} (pre : γ → Option (α × β)) (records : List γ) :
    (get_qm9 pre records).dataset.length = (get_qm9 pre records).smiles.length ∧
    (get_qm9 pre records).success = (get_qm9 pre records).dataset.length ∧
    (get_qm9 pre records).fail + (get_qm9 pre records).success =
      (get_qm9 pre records).total ∧
    (get_qm9 pre records).total = records.length ∧
    (∀ i a, (get_qm9 pre records).dataset.get? i = some a →
      ∃ r b, r ∈ records ∧ (get_qm9 pre records).smiles.get? i = some b ∧
        pre r = some (a, b)) := by
  induction records with
  | nil =>
    exact ⟨rfl, rfl, rfl, rfl, fun i a h => by simp [get_qm9] at h⟩
  | cons r rs ih =>
    obtain ⟨ihLen, ihSucc, ihCnt, ihTot, ihCorr⟩ := ih
    cases hpre : pre r with
    | none =>
      refine ⟨?_, ?_, ?_, ?_, fun i a h => ?_⟩
      · simpa [get_qm9, hpre] using ihLen
      · simpa [get_qm9, hpre] using ihSucc
      · simp [get_qm9, hpre]; omega
      · simp [get_qm9, hpre]; omega
      · simp only [get_qm9, hpre] at h ⊢
        obtain ⟨r2, b, hmem, hb, hpre2⟩ := ihCorr i a h
        exact ⟨r2, b, List.mem_cons_of_mem r hmem, hb, hpre2⟩
    | some fs =>
      obtain ⟨f, s⟩ := fs
      refine ⟨?_, ?_, ?_, ?_, fun i a h => ?_⟩
      · simpa [get_qm9, hpre] using ihLen
      · simpa [get_qm9, hpre] using ihSucc
      · simp [get_qm9, hpre]; omega
      · simp [get_qm9, hpre]; omega
      · simp only [get_qm9, hpre] at h ⊢
        cases i with
        | zero =>
          simp only [List.get?_cons_zero, Option.some.injEq] at h
          exact ⟨r, s, List.mem_cons_self r rs, by simp, by rw [hpre, h]⟩
        | succ n =>
          simp only [List.get?_cons_succ] at h ⊢
          obtain ⟨r2, b, hmem, hb, hpre2⟩ := ihCorr n a h
          exact ⟨r2, b, List.mem_cons_of_mem r hmem, hb, hpre2⟩

/-- Witness for C3: applied to a concrete preprocessor that fails on
record 0 and succeeds elsewhere, over three raw records. -/
theorem C3_get_qm9_witness :
    ∃ r b, r ∈ [0, 1, 2] ∧
      (get_qm9 (fun n : Nat => if n = 0 then none else some (n, n + 10))
          [0, 1, 2]).smiles.get? 0 = some b ∧
      (fun n : Nat => if n = 0 then none else some (n, n + 10)) r = some (1, b) :=
  (C3_get_qm9 (fun n : Nat => if n = 0 then none else some (n, n + 10))
      [0, 1, 2]).2.2.2.2 0 1 rfl

/-- Helper: every post-preprocessing step leaves `dataset` and
`dataset_smiles` unchanged (it only reads them; the sole written state
is the filesystem). -/
theorem runStep_preserves (parse : String → Option Mol) (s : PostStep)
    (nb nb2 : NB) (h : runStep parse s nb = some nb2) :
    nb2.dataset = nb.dataset ∧ nb2.dataset_smiles = nb.dataset_smiles := by
  cases s with
  | inspectRecord i =>
    dsimp [runStep] at h
    split at h
    · injection h with h; subst h; exact ⟨rfl, rfl⟩
    · cases h
  | renderSmiles i =>
    dsimp [runStep] at h
    rw [Option.bind_eq_some] at h
    obtain ⟨sm, hsm, h⟩ := h
    rw [Option.map_eq_some'] at h
    obtain ⟨m, hm, h⟩ := h
    subst h; exact ⟨rfl, rfl⟩
  | browse i =>
    dsimp [runStep] at h
    rw [Option.map_eq_some'] at h
    obtain ⟨o, ho, h⟩ := h
    subst h; exact ⟨rfl, rfl⟩
  | imagesDirStep =>
    dsimp [runStep] at h
    split at h
    · injection h with h; subst h; exact ⟨rfl, rfl⟩
    · cases h
  | saveSvgAt i =>
    dsimp [runStep] at h
    rw [Option.bind_eq_some] at h
    obtain ⟨sm, hsm, h⟩ := h
    rw [Option.map_eq_some'] at h
    obtain ⟨m, hm, h⟩ := h
    subst h; exact ⟨rfl, rfl⟩
  | savePngAt i =>
    dsimp [runStep] at h
    rw [Option.bind_eq_some] at h
    obtain ⟨sm, hsm, h⟩ := h
    rw [Option.map_eq_some'] at h
    obtain ⟨m, hm, h⟩ := h
    subst h; exact ⟨rfl, rfl⟩

/-- Helper: once a step has failed, the remaining steps cannot revive
the run. -/
theorem runSteps_from_none (parse : String → Option Mol) (l : List PostStep) :
    l.foldl (fun acc s => acc.bind (runStep parse s)) none = none := by
  induction l with
  | nil => rfl
  | cons s t ih => exact ih

/-- C6: after preprocessing, `dataset` and `dataset_smiles` are never
mutated — running any sequence of the later notebook steps (indexed
inspection, rendering, `show_dataset` browsing, directory setup, image
export) leaves both collections exactly as preprocessing produced them,
so `dataset[i]` and `dataset_smiles[i]` have the same value at every
point after preprocessing. -/
theorem C6_dataset_immutable (parse : String → Option Mol)
    (l : List PostStep) (nb nb2 : NB) (h : runSteps parse l nb = some nb2) :
    nb2.dataset = nb.dataset ∧ nb2.dataset_smiles = nb.dataset_smiles := by
  induction l generalizing nb with
  | nil =>
    injection h with h; subst h; exact ⟨rfl, rfl⟩
  | cons s t ih =>
    have hh : runSteps parse (s :: t) nb =
        t.foldl (fun acc s => acc.bind (runStep parse s)) (runStep parse s nb) := rfl
    rw [hh] at h
    cases hstep : runStep parse s nb with
    | none =>
      rw [hstep, runSteps_from_none] at h
      cases h
    | some nbm =>
      rw [hstep] at h
      obtain ⟨h1, h2⟩ := ih nbm h
      obtain ⟨h3, h4⟩ := runStep_preserves parse s nb nbm hstep
      exact ⟨h1.trans h3, h2.trans h4⟩

/-- Witness for C6: a concrete run of the directory-setup step on a
state that already has the `images` directory returns the state with
both collections intact. -/
theorem C6_dataset_immutable_witness :
    (NB.mk [record_7777] ["CC1=NCCC(C)O1"] (FS.mk ["images"] [])).dataset =
      [record_7777] ∧
    (NB.mk [record_7777] ["CC1=NCCC(C)O1"] (FS.mk ["images"] [])).dataset_smiles =
      ["CC1=NCCC(C)O1"] :=
  C6_dataset_immutable (fun _ => none) [PostStep.imagesDirStep]
    (NB.mk [record_7777] ["CC1=NCCC(C)O1"] (FS.mk ["images"] []))
    (NB.mk [record_7777] ["CC1=NCCC(C)O1"] (FS.mk ["images"] [])) rfl

/-- C8: for a non-empty dataset, every index the slider
`interact(show_dataset, index=(0, len(dataset) - 1, 1))` can deliver is
an integer in 0 .. len(dataset) - 1, so both accesses `dataset[index]`
and `dataset_smiles[index]` made inside `show_dataset` are in bounds. -/
theorem C8_slider_in_bounds (nb : NB) (v : Nat)
    (hne : nb.dataset ≠ [])
    (hlen : nb.dataset_smiles.length = nb.dataset.length)
    (hv : sliderValue 0 (nb.dataset.length - 1) 1 v) :
    v < nb.dataset.length ∧ nb.dataset.get? v ≠ none ∧
      nb.dataset_smiles.get? v ≠ none := by
  obtain ⟨h0, hle, hstep⟩ := hv
  have hpos : 0 < nb.dataset.length := List.length_pos.mpr hne
  have hvlt : v < nb.dataset.length := by omega
  refine ⟨hvlt, ?_, ?_⟩
  · rw [Ne, List.get?_eq_none]
    omega
  · rw [Ne, List.get?_eq_none]
    omega

/-- Witness for C8: the slider value 0 on the one-record dataset is in
bounds. -/
theorem C8_slider_in_bounds_witness :
    (NB.mk [record_7777] ["CC1=NCCC(C)O1"] (FS.mk [] [])).dataset.get? 0 ≠ none :=
  (C8_slider_in_bounds (NB.mk [record_7777] ["CC1=NCCC(C)O1"] (FS.mk [] [])) 0
      (by simp) rfl ⟨Nat.le_refl 0, Nat.zero_le 0, rfl⟩).2.1

end QM9Exploration
